import Mathlib

/-!
Verification of the `tape` column-mapper utility
(`src/tape/utils/column_mapper/column_mapper.py`).

The Python module defines a class `ColumnMapper` holding a dict `self.map`
from the five role keys `id_col`, `time_col`, `flux_col`, `err_col`,
`band_col` to either a column-name string or `None`, a list `self.required`
of `Column(name, is_required)` named tuples, and a registry
`self.known_maps = {"ZTF": ZTFColumnMapper}`.  The subclass
`ZTFColumnMapper` overrides `_set_known_map` (which replaces `self.map`
wholesale with the fixed ZTF column names) and `map_id`.

We embed the dicts as association lists (Python dicts preserve insertion
order and have unique keys; our `dictSet` updates the first occurrence in
place and appends when the key is missing, which coincides with dict
assignment on unique-key lists).  `None` becomes `Option.none`, exceptions
become `Except TapeError`, and the dynamic class of an instance becomes the
tag `MapperClass`.
-/

set_option autoImplicit false

namespace Tape

/-- The `Column` named tuple: `Column = namedtuple("Column", ["name", "is_required"])`. -/
structure Column where
  name : String
  is_required : Bool
  deriving Repr, DecidableEq

/-- The dynamic class of an instance: the base `ColumnMapper` or the
`ZTFColumnMapper` subclass.  Method dispatch on `_set_known_map` and
`map_id` goes through this tag. -/
inductive MapperClass
  | base
  | ztf
  deriving Repr, DecidableEq

/-- The exceptions the module can raise: `ValueError(msg)` from
`use_known_map`, and `NotImplementedError` from the base
`_set_known_map`. -/
inductive TapeError
  | valueError (msg : String)
  | notImplementedError
  deriving Repr, DecidableEq

/-- Lookup in an association list embedding a Python dict:
`dictGet d k = some v` iff `k in d` with `d[k] == v`. -/
def dictGet {α : Type} : List (String × α) → String → Option α
  | [], _ => none
  | (k', v') :: rest, k => if k' == k then some v' else dictGet rest k

/-- Dict assignment `d[k] = v`: replaces the (first) binding of `k` in
place, appending when `k` is absent — exactly dict assignment, since the
embedded dicts have unique keys. -/
def dictSet {α : Type} : List (String × α) → String → α → List (String × α)
  | [], k, v => [(k, v)]
  | (k', v') :: rest, k, v =>
    if k' == k then (k', v) :: rest else (k', v') :: dictSet rest k v

/-- Instance state of a `ColumnMapper` (or `ZTFColumnMapper`, per `cls`):
the fields set by `__init__` plus the dynamic class tag. -/
structure ColumnMapper where
  cls : MapperClass
  map : List (String × Option String)
  required : List Column
  known_maps : List (String × MapperClass)
  deriving Repr, DecidableEq

/-- `self.map[key]` for the value dict: the role keys are always present
(see the keys invariant below), so we flatten the missing-key case (a
Python `KeyError`, unreachable here) to `none`. -/
def mapVal (m : List (String × Option String)) (k : String) : Option String :=
  (dictGet m k).getD none

/-- `ColumnMapper.__init__(id_col, time_col, flux_col, err_col, band_col)`:
builds `self.map` with the five role keys, `self.required` with all five
roles marked required, and the registry `self.known_maps`.  `cls` records
which class was instantiated (the subclass inherits this `__init__`). -/
def ColumnMapper.init (cls : MapperClass)
    (id_col time_col flux_col err_col band_col : Option String) : ColumnMapper :=
  { cls := cls
  , map :=
      [ ("id_col", id_col)
      , ("time_col", time_col)
      , ("flux_col", flux_col)
      , ("err_col", err_col)
      , ("band_col", band_col) ]
  , required :=
      [ ⟨"id_col", true⟩
      , ⟨"time_col", true⟩
      , ⟨"flux_col", true⟩
      , ⟨"err_col", true⟩
      , ⟨"band_col", true⟩ ]
  , known_maps := [("ZTF", MapperClass.ztf)] }

/-- The fixed map installed by `ZTFColumnMapper._set_known_map`. -/
def ztfMap : List (String × Option String) :=
  [ ("id_col", some "ps1_objid")
  , ("time_col", some "midPointTai")
  , ("flux_col", some "psFlux")
  , ("err_col", some "psFluxErr")
  , ("band_col", some "filterName") ]

/-- `_set_known_map`: the base class raises `NotImplementedError`; the ZTF
subclass replaces `self.map` wholesale with `ztfMap` and returns `self`. -/
def ColumnMapper.set_known_map (self : ColumnMapper) : Except TapeError ColumnMapper :=
  match self.cls with
  | MapperClass.base => Except.error TapeError.notImplementedError
  | MapperClass.ztf => Except.ok { self with map := ztfMap }

/-- `map_id`: a static method, so it depends only on the class.  The base
class returns `None`; `ZTFColumnMapper` returns `"ZTF"`. -/
def ColumnMapper.map_id : MapperClass → Option String
  | MapperClass.base => none
  | MapperClass.ztf => some "ZTF"

/-- `use_known_map(map_id)`: if `map_id in self.known_maps`, construct a
fresh instance of the registered class (`self.known_maps[map_id]()`, i.e.
`__init__` with all arguments `None`) and call `_set_known_map()` on it;
otherwise raise a `ValueError` whose message is `Unknown Mapping: ` followed
by the identifier in double quotes. -/
def ColumnMapper.use_known_map (self : ColumnMapper) (mid : String) :
    Except TapeError ColumnMapper :=
  match dictGet self.known_maps mid with
  | some c => ColumnMapper.set_known_map (ColumnMapper.init c none none none none none)
  | none => Except.error (TapeError.valueError ("Unknown Mapping: \"" ++ mid ++ "\""))

/-- State-passing form of `use_known_map`: pairs the receiver's state after
the call with the call's result.  The method body only reads `self`
(`self.known_maps`); it contains no assignment to `self`, so each branch
returns the receiver unchanged. -/
def ColumnMapper.use_known_map_st (self : ColumnMapper) (mid : String) :
    ColumnMapper × Except TapeError ColumnMapper :=
  match dictGet self.known_maps mid with
  | some c =>
    (self, ColumnMapper.set_known_map (ColumnMapper.init c none none none none none))
  | none =>
    (self, Except.error (TapeError.valueError ("Unknown Mapping: \"" ++ mid ++ "\"")))

/-- The loop of `is_ready`: over `required_keys` (names of the required
columns), accumulate `(ready, needed)`, appending each key whose map value
is `None` and clearing `ready`.  This is the `show_needed=True` return
value; `is_ready` with `show_needed=False` is its first component. -/
def ColumnMapper.is_ready_pair (self : ColumnMapper) : Bool × List String :=
  let required_keys := (self.required.filter (fun c => c.is_required)).map (fun c => c.name)
  required_keys.foldl
    (fun acc key =>
      match mapVal self.map key with
      | none => (false, acc.2 ++ [key])
      | some _ => acc)
    (true, [])

/-- `is_ready()` with the default `show_needed=False`. -/
def ColumnMapper.is_ready (self : ColumnMapper) : Bool :=
  (self.is_ready_pair).1

/-- `assign(id_col, ..., band_col)`: builds `assign_map` from the five
(optional) arguments and writes each non-`None` value into `self.map`,
then returns `self`. -/
def ColumnMapper.assign (self : ColumnMapper)
    (id_col time_col flux_col err_col band_col : Option String) : ColumnMapper :=
  let assign_map : List (String × Option String) :=
    [ ("id_col", id_col)
    , ("time_col", time_col)
    , ("flux_col", flux_col)
    , ("err_col", err_col)
    , ("band_col", band_col) ]
  assign_map.foldl
    (fun acc item =>
      match item.2 with
      | some v => { acc with map := dictSet acc.map item.1 (some v) }
      | none => acc)
    self

/-- The mappers reachable through the module's API: construction, `assign`,
a successful `_set_known_map`, and a successful `use_known_map`. -/
inductive Reachable : ColumnMapper → Prop
  | init (cls : MapperClass) (i t f e b : Option String) :
      Reachable (ColumnMapper.init cls i t f e b)
  | assign (m : ColumnMapper) (i t f e b : Option String) :
      Reachable m → Reachable (m.assign i t f e b)
  | set_known (m m' : ColumnMapper) :
      Reachable m → m.set_known_map = Except.ok m' → Reachable m'
  | use_known (m m' : ColumnMapper) (s : String) :
      Reachable m → m.use_known_map s = Except.ok m' → Reachable m'

end Tape

namespace Tape

/-! ### Helper definitions and lemmas -/

/-- The five role keys of `self.map`, in declaration order. -/
def roleKeys : List String := ["id_col", "time_col", "flux_col", "err_col", "band_col"]

/-- The `self.required` list built by `__init__`: all five roles, all marked
required. -/
def stdRequired : List Column :=
  [ ⟨"id_col", true⟩, ⟨"time_col", true⟩, ⟨"flux_col", true⟩
  , ⟨"err_col", true⟩, ⟨"band_col", true⟩ ]

/-- The fully preset mapper produced by `use_known_map("ZTF")`: a fresh
`ZTFColumnMapper()` whose map was replaced by `_set_known_map`. -/
def ztfPreset : ColumnMapper :=
  { ColumnMapper.init MapperClass.ztf none none none none none with map := ztfMap }

theorem dictGet_dictSet_self {α : Type} (m : List (String × α)) (k : String) (v : α) :
    dictGet (dictSet m k v) k = some v := by
  induction m with
  | nil => simp [dictGet, dictSet]
  | cons p rest ih =>
    by_cases h : p.1 == k
    · simp [dictGet, dictSet, h]
    · simp [dictGet, dictSet, h, ih]

theorem dictGet_dictSet_ne {α : Type} (m : List (String × α)) (k k' : String) (v : α)
    (h : k ≠ k') : dictGet (dictSet m k v) k' = dictGet m k' := by
  induction m with
  | nil => simp [dictGet, dictSet, h]
  | cons p rest ih =>
    by_cases hk : p.1 == k
    · have hp : p.1 = k := by simpa using hk
      simp [dictGet, dictSet, hk, hp, h]
    · simp [dictGet, dictSet, hk, ih]

theorem dictSet_keys {α : Type} (m : List (String × α)) (k : String) (v : α)
    (h : k ∈ m.map Prod.fst) : (dictSet m k v).map Prod.fst = m.map Prod.fst := by
  induction m with
  | nil => simp at h
  | cons p rest ih =>
    by_cases hk : p.1 = k
    · simp [dictSet, hk]
    · have hne : (p.1 == k) = false := by simp [hk]
      rw [List.map_cons] at h
      rcases List.mem_cons.mp h with h1 | h2
      · exact absurd h1.symm hk
      · simp [dictSet, hne, ih h2]

theorem dictSet_keys_role (m : List (String × Option String)) (k : String) (v : Option String)
    (h1 : m.map Prod.fst = roleKeys) (h2 : k ∈ roleKeys) :
    (dictSet m k v).map Prod.fst = roleKeys := by
  rw [dictSet_keys m k v (h1 ▸ h2), h1]

theorem foldl_assign_keys (l : List (String × Option String)) (acc : ColumnMapper)
    (hl : ∀ p ∈ l, p.1 ∈ roleKeys) (h : acc.map.map Prod.fst = roleKeys) :
    ((l.foldl (fun acc item =>
      match item.2 with
      | some v => { acc with map := dictSet acc.map item.1 (some v) }
      | none => acc) acc).map.map Prod.fst = roleKeys) := by
  induction l generalizing acc with
  | nil => simpa using h
  | cons p rest ih =>
    obtain ⟨k, ov⟩ := p
    cases ov with
    | none =>
      rw [List.foldl_cons]
      exact ih acc (fun q hq => hl q (List.mem_cons_of_mem _ hq)) h
    | some v =>
      rw [List.foldl_cons]
      exact ih _ (fun q hq => hl q (List.mem_cons_of_mem _ hq))
        (dictSet_keys_role acc.map k (some v) h (hl (k, some v) (List.mem_cons_self _ _)))

theorem assign_keys (m : ColumnMapper) (i t f e b : Option String)
    (h : m.map.map Prod.fst = roleKeys) :
    (m.assign i t f e b).map.map Prod.fst = roleKeys := by
  refine foldl_assign_keys _ m ?_ h
  intro p hp
  simp only [List.mem_cons, List.not_mem_nil, or_false] at hp
  rcases hp with rfl | rfl | rfl | rfl | rfl <;> simp [roleKeys]

theorem foldl_assign_fields (l : List (String × Option String)) (acc : ColumnMapper) :
    ((l.foldl (fun acc item =>
      match item.2 with
      | some v => { acc with map := dictSet acc.map item.1 (some v) }
      | none => acc) acc).known_maps = acc.known_maps ∧
     (l.foldl (fun acc item =>
      match item.2 with
      | some v => { acc with map := dictSet acc.map item.1 (some v) }
      | none => acc) acc).required = acc.required ∧
     (l.foldl (fun acc item =>
      match item.2 with
      | some v => { acc with map := dictSet acc.map item.1 (some v) }
      | none => acc) acc).cls = acc.cls) := by
  induction l generalizing acc with
  | nil => exact ⟨rfl, rfl, rfl⟩
  | cons p rest ih =>
    obtain ⟨k, ov⟩ := p
    cases ov with
    | none => exact ih acc
    | some v => exact ih { acc with map := dictSet acc.map k (some v) }

theorem assign_fields (m : ColumnMapper) (i t f e b : Option String) :
    (m.assign i t f e b).known_maps = m.known_maps ∧
    (m.assign i t f e b).required = m.required ∧
    (m.assign i t f e b).cls = m.cls :=
  foldl_assign_fields _ m

/-- Every reachable mapper has the five role keys in declaration order, the
one-entry registry, and the all-required `required` list. -/
theorem reachable_invariant (m : ColumnMapper) (h : Reachable m) :
    m.map.map Prod.fst = roleKeys ∧
    m.known_maps = [("ZTF", MapperClass.ztf)] ∧
    m.required = stdRequired := by
  induction h with
  | init cls i t f e b => exact ⟨rfl, rfl, rfl⟩
  | assign m i t f e b _ ih =>
    exact ⟨assign_keys m i t f e b ih.1,
      (assign_fields m i t f e b).1.trans ih.2.1,
      (assign_fields m i t f e b).2.1.trans ih.2.2⟩
  | set_known m m' _ hok ih =>
    cases hcls : m.cls <;> simp [ColumnMapper.set_known_map, hcls] at hok
    subst hok
    exact ⟨rfl, ih.2.1, ih.2.2⟩
  | use_known m m' s _ hok ih =>
    rw [ColumnMapper.use_known_map, ih.2.1] at hok
    by_cases hs : s = "ZTF"
    · subst hs
      simp [dictGet, ColumnMapper.set_known_map, ColumnMapper.init] at hok
      subst hok
      exact ⟨rfl, rfl, rfl⟩
    · simp [dictGet, Ne.symm hs] at hok

end Tape

namespace Tape

/-! ### Claim theorems -/

/-- C1: for every identifier string not present in the preset registry
(whose only key is "ZTF"), `use_known_map` with that identifier raises the
unknown-mapping error, whose payload carries the offending identifier
string. -/
theorem use_known_map_unknown_raises (m : ColumnMapper) (s : String)
    (hreg : m.known_maps = [("ZTF", MapperClass.ztf)]) (hs : s ≠ "ZTF") :
    m.use_known_map s
      = Except.error (TapeError.valueError ("Unknown Mapping: \"" ++ s ++ "\"")) := by
  simp [ColumnMapper.use_known_map, hreg, dictGet, Ne.symm hs]

/-- Witness for C1 at the identifier "UNKNOWN". -/
theorem use_known_map_unknown_raises_witness :
    (ColumnMapper.init MapperClass.base none none none none none).known_maps
        = [("ZTF", MapperClass.ztf)] ∧
    ("UNKNOWN" : String) ≠ "ZTF" ∧
    (ColumnMapper.init MapperClass.base none none none none none).use_known_map "UNKNOWN"
      = Except.error (TapeError.valueError ("Unknown Mapping: \"" ++ "UNKNOWN" ++ "\"")) :=
  ⟨rfl, by decide,
    use_known_map_unknown_raises (ColumnMapper.init MapperClass.base none none none none none)
      "UNKNOWN" rfl (by decide)⟩

/-- C2: `use_known_map("ZTF")` on any reachable mapper returns the preset
mapper whose map is exactly the ZTF column map and whose `is_ready()` is
true. -/
theorem use_known_map_ztf (m : ColumnMapper) (h : Reachable m) :
    m.use_known_map "ZTF" = Except.ok ztfPreset ∧
    ztfPreset.map = ztfMap ∧
    ztfPreset.is_ready = true := by
  refine ⟨?_, rfl, by decide⟩
  rw [ColumnMapper.use_known_map, (reachable_invariant m h).2.1]
  rfl

/-- Witness for C2 on a freshly constructed empty mapper. -/
theorem use_known_map_ztf_witness :
    (ColumnMapper.init MapperClass.base none none none none none).use_known_map "ZTF"
      = Except.ok ztfPreset ∧
    ztfPreset.map = ztfMap ∧
    ztfPreset.is_ready = true :=
  use_known_map_ztf (ColumnMapper.init MapperClass.base none none none none none)
    (Reachable.init MapperClass.base none none none none none)

/-- C3: `use_known_map` leaves the receiver unchanged (state-passing form),
agrees with the plain result, and its result does not depend on the
receiver's mapping at all — any mapper with the same registry gets the same
result — both on success and on the unknown-identifier error. -/
theorem use_known_map_no_mutation (m : ColumnMapper) (s : String) :
    (m.use_known_map_st s).1 = m ∧
    (m.use_known_map_st s).2 = m.use_known_map s ∧
    ∀ m' : ColumnMapper, m'.known_maps = m.known_maps →
      m'.use_known_map s = m.use_known_map s := by
  refine ⟨?_, ?_, ?_⟩
  · cases hd : dictGet m.known_maps s <;>
      simp [ColumnMapper.use_known_map_st, hd]
  · cases hd : dictGet m.known_maps s <;>
      simp [ColumnMapper.use_known_map_st, ColumnMapper.use_known_map, hd]
  · intro m' hm
    simp [ColumnMapper.use_known_map, hm]

/-- Witness for C3: the receiver is unchanged on the error path, and a
mapper with the same registry gets the same result. -/
theorem use_known_map_no_mutation_witness :
    ((ColumnMapper.init MapperClass.base none none none none none).use_known_map_st "UNKNOWN").1
      = ColumnMapper.init MapperClass.base none none none none none ∧
    (ColumnMapper.init MapperClass.ztf (some "a") none none none none).use_known_map "UNKNOWN"
      = (ColumnMapper.init MapperClass.base none none none none none).use_known_map "UNKNOWN" :=
  ⟨(use_known_map_no_mutation (ColumnMapper.init MapperClass.base none none none none none)
      "UNKNOWN").1,
   (use_known_map_no_mutation (ColumnMapper.init MapperClass.base none none none none none)
      "UNKNOWN").2.2 (ColumnMapper.init MapperClass.ztf (some "a") none none none none) rfl⟩

/-- C4: for every combination of the five optional constructor values,
`is_ready()` is true iff all five are non-absent. -/
theorem init_is_ready_iff (cls : MapperClass) (i t f e b : Option String) :
    (ColumnMapper.init cls i t f e b).is_ready
      = (i.isSome && t.isSome && f.isSome && e.isSome && b.isSome) := by
  cases i <;> cases t <;> cases f <;> cases e <;> cases b <;>
    simp [ColumnMapper.init, ColumnMapper.is_ready, ColumnMapper.is_ready_pair, mapVal, dictGet]

/-- C5: on the empty mapper, `is_ready(show_needed=True)` returns
`(false, [id_col, time_col, flux_col, err_col, band_col])` in declaration
order; in general the second component lists exactly the required roles
whose value is absent, in role-declaration order. -/
theorem is_ready_show_needed (m : ColumnMapper) (i t f e b : Option String)
    (hreq : m.required = stdRequired)
    (hmap : m.map
      = [("id_col", i), ("time_col", t), ("flux_col", f), ("err_col", e), ("band_col", b)]) :
    m.is_ready_pair
      = ((i.isSome && t.isSome && f.isSome && e.isSome && b.isSome),
         (([("id_col", i), ("time_col", t), ("flux_col", f), ("err_col", e), ("band_col", b)].filter
            (fun p => p.2.isNone)).map Prod.fst)) ∧
    (ColumnMapper.init MapperClass.base none none none none none).is_ready_pair
      = (false, ["id_col", "time_col", "flux_col", "err_col", "band_col"]) := by
  constructor
  · obtain ⟨c, mp, rq, km⟩ := m
    dsimp only at hreq hmap
    subst hreq hmap
    cases i <;> cases t <;> cases f <;> cases e <;> cases b <;>
      simp [ColumnMapper.is_ready_pair, stdRequired, mapVal, dictGet]
  · decide

/-- Witness for C5 on a mapper with only `id_col` and `band_col` set. -/
theorem is_ready_show_needed_witness :
    (ColumnMapper.init MapperClass.base (some "x") none none none (some "y")).is_ready_pair
      = (false, ["time_col", "flux_col", "err_col"]) := by
  have h := (is_ready_show_needed
    (ColumnMapper.init MapperClass.base (some "x") none none none (some "y"))
    (some "x") none none none (some "y") rfl rfl).1
  simpa using h

/-- C6: `assign()` with no arguments leaves every role unchanged, never
fails, and returns the mapper it was called on. -/
theorem assign_noop (m : ColumnMapper) :
    m.assign none none none none none = m := rfl

/-- C7: `assign` overwrites exactly the supplied roles and leaves the
others untouched; in particular assigning `time_col` twice with different
values leaves the last value and every other role as before. -/
theorem assign_overwrites (m : ColumnMapper) (i t f e b : Option String) :
    (mapVal (m.assign i t f e b).map "id_col"
        = (match i with | some v => some v | none => mapVal m.map "id_col") ∧
     mapVal (m.assign i t f e b).map "time_col"
        = (match t with | some v => some v | none => mapVal m.map "time_col") ∧
     mapVal (m.assign i t f e b).map "flux_col"
        = (match f with | some v => some v | none => mapVal m.map "flux_col") ∧
     mapVal (m.assign i t f e b).map "err_col"
        = (match e with | some v => some v | none => mapVal m.map "err_col") ∧
     mapVal (m.assign i t f e b).map "band_col"
        = (match b with | some v => some v | none => mapVal m.map "band_col")) ∧
    (∀ v1 v2 : String, v1 ≠ v2 →
      (mapVal ((m.assign none (some v1) none none none).assign
          none (some v2) none none none).map "time_col" = some v2 ∧
       mapVal ((m.assign none (some v1) none none none).assign
          none (some v2) none none none).map "id_col" = mapVal m.map "id_col" ∧
       mapVal ((m.assign none (some v1) none none none).assign
          none (some v2) none none none).map "flux_col" = mapVal m.map "flux_col" ∧
       mapVal ((m.assign none (some v1) none none none).assign
          none (some v2) none none none).map "err_col" = mapVal m.map "err_col" ∧
       mapVal ((m.assign none (some v1) none none none).assign
          none (some v2) none none none).map "band_col" = mapVal m.map "band_col")) := by
  constructor
  · cases i <;> cases t <;> cases f <;> cases e <;> cases b <;>
      simp [ColumnMapper.assign, mapVal, dictGet_dictSet_self, dictGet_dictSet_ne]
  · intro v1 v2 _
    refine ⟨?_, ?_, ?_, ?_, ?_⟩ <;>
      simp [ColumnMapper.assign, mapVal, dictGet_dictSet_self, dictGet_dictSet_ne]

/-- Witness for C7: assigning `time_col` to "a" then "b" yields "b", with
`id_col` untouched. -/
theorem assign_overwrites_witness :
    ("a" : String) ≠ "b" ∧
    mapVal (((ColumnMapper.init MapperClass.base none none none none none).assign
        none (some "a") none none none).assign none (some "b") none none none).map "time_col"
      = some "b" ∧
    mapVal (((ColumnMapper.init MapperClass.base none none none none none).assign
        none (some "a") none none none).assign none (some "b") none none none).map "id_col"
      = mapVal (ColumnMapper.init MapperClass.base none none none none none).map "id_col" :=
  ⟨by decide,
   ((assign_overwrites (ColumnMapper.init MapperClass.base none none none none none)
      none none none none none).2 "a" "b" (by decide)).1,
   ((assign_overwrites (ColumnMapper.init MapperClass.base none none none none none)
      none none none none none).2 "a" "b" (by decide)).2.1⟩

/-- C8: `map_id()` returns absent on the base class and "ZTF" on the ZTF
preset class. -/
theorem map_id_values :
    ColumnMapper.map_id MapperClass.base = none ∧
    ColumnMapper.map_id MapperClass.ztf = some "ZTF" :=
  ⟨rfl, rfl⟩

/-- C9: every mapper reachable through the constructor, `assign`,
`_set_known_map` and `use_known_map` has a mapping whose keys are exactly
the five role keys, in declaration order. -/
theorem map_keys_invariant (m : ColumnMapper) (h : Reachable m) :
    m.map.map Prod.fst = roleKeys :=
  (reachable_invariant m h).1

/-- Witness for C9 after a construction followed by an `assign`. -/
theorem map_keys_invariant_witness :
    ((ColumnMapper.init MapperClass.base none none none none none).assign
        (some "a") none none none none).map.map Prod.fst = roleKeys :=
  map_keys_invariant
    ((ColumnMapper.init MapperClass.base none none none none none).assign
        (some "a") none none none none)
    (Reachable.assign (ColumnMapper.init MapperClass.base none none none none none)
      (some "a") none none none none
      (Reachable.init MapperClass.base none none none none none))

/-- C10: only `None` counts as unassigned — a mapper constructed with all
five roles set to the empty string is ready, and `assign` treats an
empty-string argument as supplied, overwriting the role with it. -/
theorem empty_string_counts_assigned :
    (∀ cls : MapperClass,
      (ColumnMapper.init cls (some "") (some "") (some "") (some "") (some "")).is_ready
        = true) ∧
    (∀ m : ColumnMapper,
      mapVal (m.assign (some "") none none none none).map "id_col" = some "") := by
  constructor
  · intro cls
    rfl
  · intro m
    simp [ColumnMapper.assign, mapVal, dictGet_dictSet_self]

end Tape
